import Mathlib

/-!
# Verification of the token-lifecycle core of `fastapi-services`

Shallow embedding of the JWT session-management core of the repository:

* `backend/common/security/jwt.py` — token codec (`jwt_decode`), token
  issuance (`create_access_token`, `create_refresh_token`), rotation
  (`create_new_token`), credential check (`password_verify`);
* `backend/app/admin/service/auth.py` — `AuthService.user_verify`,
  `AuthService.logout`, login/refresh orchestration;
* `backend/app/admin/service/token.py` — `TokenService.get_token_list`,
  `TokenService.kick_out`;
* `backend/database/redis.py` — `RedisClient.delete_prefix` and the plain
  get/setex/delete cache operations;
* `backend/core/config.py` — the redis namespace constants.

The redis store is modelled as an association list from string keys to
values; every cache-mutating call of the embedded functions is recorded as
an explicit operation so that claims about the *order* of writes and
deletes can be stated over intermediate states.  The JWT wire format
(base64/HMAC, python-jose) is abstracted into an inductive `Token` carrying
the claim set and the signing key; python-jose's decode order (signature
check, then expiry check) is preserved.  Clock readings and freshly drawn
`uuid4` session ids are explicit parameters.
-/

namespace FS

/-! ## Configuration constants (`backend/core/config.py`) -/

/-- `settings.TOKEN_REDIS_PREFIX` -/
def TOKEN_REDIS_NS : String := "fs:token"

/-- `settings.TOKEN_REFRESH_REDIS_PREFIX` -/
def TOKEN_REFRESH_REDIS_NS : String := "fs:refresh_token"

/-- `settings.TOKEN_EXTRA_INFO_REDIS_PREFIX` -/
def TOKEN_EXTRA_INFO_REDIS_NS : String := "fs:token_extra_info"

/-- `settings.TOKEN_EXPIRE_SECONDS` (7 days) -/
def TOKEN_EXPIRE_SECONDS : Nat := 604800

/-- `settings.TOKEN_REFRESH_EXPIRE_SECONDS` (8 days) -/
def TOKEN_REFRESH_EXPIRE_SECONDS : Nat := 691200

/-! ## Token codec (`backend/common/security/jwt.py`, python-jose)

A claim set is what both encoders put on the wire: `sub` (subject,
stringified user id), `exp` (expiry, a unix timestamp), and — for access
tokens only — `session_uuid`.  `Token.signed c k` is the string
`jwt.encode(c, k, algorithm)`; `Token.malformed s` is any string that is
not a well-formed JWT produced with some key. -/

structure Claims where
  sub : Option String
  exp : Nat
  session_uuid : Option String
deriving DecidableEq, Repr

inductive Token where
  | signed (claims : Claims) (key : String)
  | malformed (raw : String)
deriving DecidableEq, Repr

/-- `jwt.encode(claims, key, algorithm)` — the algorithm is fixed
process-wide configuration and is dropped from the model. -/
def jwtEncode (claims : Claims) (key : String) : Token :=
  Token.signed claims key

inductive JoseError where
  | expiredSignature
  | jwtError
deriving DecidableEq, Repr

/-- `jose.jwt.decode(token, secret, algorithms=[...])`: signature and
structure are verified first (failure: `JWTError`), then the `exp` claim is
validated — python-jose raises `ExpiredSignatureError` exactly when
`exp < now`. -/
def joseDecode (t : Token) (secret : String) (now : Nat) : Except JoseError Claims :=
  match t with
  | Token.malformed _ => Except.error JoseError.jwtError
  | Token.signed c k =>
    if k ≠ secret then Except.error JoseError.jwtError
    else if c.exp < now then Except.error JoseError.expiredSignature
    else Except.ok c

/-! ## Error taxonomy (`backend/common/exception/errors.py`)

Each constructor is one of the exception classes raised by the embedded
code, carrying its message; `valueError` stands for Python's builtin
`ValueError` (raised by `int()` outside any `try` block). -/

inductive AppError where
  | requestError (msg : String)
  | notFoundError (msg : String)
  | forbiddenError (msg : String)
  | authorizationError (msg : String)
  | tokenError (msg : String)
  | valueError
deriving DecidableEq, Repr

/-- `backend/common/dataclasses.py: TokenPayload` -/
structure TokenPayload where
  id : Int
  session_uuid : String
  expire_time : Nat
deriving DecidableEq, Repr

/-- Python truthiness of an optional string: `None` and `""` are falsy. -/
def pyTruthyStr : Option String → Bool
  | none => false
  | some s => !(s == "")

/-- A decimal digit's value, else `none`. -/
def digit? (c : Char) : Option Nat :=
  if '0' ≤ c ∧ c ≤ '9' then some (c.toNat - '0'.toNat) else none

/-- Value of a non-empty all-digit character list. -/
def natOfDigits : List Char → Option Nat
  | [] => none
  | l =>
    l.foldl
      (fun acc c =>
        match acc, digit? c with
        | some n, some d => some (n * 10 + d)
        | _, _ => none)
      (some 0)

/-- Python's `int(s)` on the strings this system produces (an optional
sign followed by decimal digits); `none` models the `ValueError` raised on
anything else. -/
def pyInt? (s : String) : Option Int :=
  match s.data with
  | '-' :: rest => (natOfDigits rest).map (fun n => -(n : Int))
  | l => (natOfDigits l).map (fun n => (n : Int))

/-- `jwt_decode` (jwt.py lines 173-203).  Inside the `try`:
python-jose decode (expiry → `TokenError("Token 已过期")`, any other
failure → `TokenError("Token 无效")`), the `or "debug"` default for a
missing or empty `session_uuid` claim, and the mandatory-subject check.
The final `int(user_id)` conversion happens *outside* the `try`, so a
non-numeric subject escapes as a bare `ValueError`. -/
def jwt_decode (token : Token) (secret : String) (now : Nat) : Except AppError TokenPayload :=
  match joseDecode token secret now with
  | Except.error JoseError.expiredSignature => Except.error (AppError.tokenError "Token 已过期")
  | Except.error JoseError.jwtError => Except.error (AppError.tokenError "Token 无效")
  | Except.ok payload =>
    let session_uuid :=
      match payload.session_uuid with
      | none => "debug"
      | some s => if s = "" then "debug" else s
    match payload.sub with
    | none => Except.error (AppError.tokenError "Token 无效")
    | some user_id =>
      if user_id = "" then Except.error (AppError.tokenError "Token 无效")
      else
        match pyInt? user_id with
        | none => Except.error AppError.valueError
        | some n => Except.ok ⟨n, session_uuid, payload.exp⟩

/-! ## Session metadata (`**kwargs` extra info)

The open keyword-argument bag serialized by `create_access_token` as a JSON
blob.  The fields are the union of what `user_login`, `refresh_new_token`
and `swagger_login` pass and what `get_token_list` reads back; a field the
writer did not pass reads back as `None`. -/

structure ExtraInfo where
  username : Option String := none
  nickname : Option String := none
  ip : Option String := none
  os : Option String := none
  browser : Option String := none
  device : Option String := none
  device_type : Option String := none
  last_login_time : Option String := none
  login_type : Option String := none
deriving DecidableEq, Repr

/-- The extra info stored by `AuthService.swagger_login` (auth.py line 69):
only `login_type="Swagger 登录"`. -/
def swaggerLoginExtra : ExtraInfo :=
  { login_type := some "Swagger 登录" }

/-- A value in the redis store.  The program stores JWT strings under
access keys (`Val.jwt`), the refresh-token string itself under refresh keys
(`Val.str`), and the serialized extra-info JSON blob under extra-info keys
(`Val.blob`). -/
inductive Val where
  | str (s : String)
  | jwt (t : Token)
  | blob (e : ExtraInfo)
deriving DecidableEq, Repr

/-! ## The redis store (`backend/database/redis.py`)

An association list from keys to values; the first binding of a key is its
current value.  `keyMatches p k` is the redis glob pattern `f"{p}*"` used
both by `delete_prefix` (`scan_iter`) and by `keys` — a plain
character-level prefix test, since no pattern built by this code contains
glob metacharacters. -/

abbrev Store := List (String × Val)

/-- Key `k` matches the glob pattern `p ++ "*"`. -/
def keyMatches (p k : String) : Bool :=
  p.data.isPrefixOf k.data

/-- `redis_client.get(key)` -/
def Store.get : Store → String → Option Val
  | [], _ => none
  | (k, v) :: rest, q => if k = q then some v else Store.get rest q

/-- `redis_client.setex(key, ttl, value)` (the TTL is tracked in the
operation trace, not in the store). -/
def Store.setex (s : Store) (k : String) (v : Val) : Store :=
  (k, v) :: s.filter (fun kv => !(kv.1 == k))

/-- `redis_client.delete(key)` — deleting an absent key is a no-op. -/
def Store.del (s : Store) (k : String) : Store :=
  s.filter (fun kv => !(kv.1 == k))

/-- `RedisClient.delete_prefix(prefix)` (redis.py lines 40-59): scan for
`f"{prefix}*"` and bulk-delete every match.  The token core never passes an
`exclude` argument. -/
def Store.delPref (s : Store) (p : String) : Store :=
  s.filter (fun kv => !keyMatches p kv.1)

/-- `redis_client.keys(f"{p}*")`, in store order. -/
def Store.keysMatching (s : Store) (p : String) : List String :=
  (s.filter (fun kv => keyMatches p kv.1)).map (fun kv => kv.1)

/-- One cache-mutating redis call, as issued by the session manager. -/
inductive RedisOp where
  | setex (k : String) (ttl : Nat) (v : Val)
  | del (k : String)
  | delPref (p : String)
deriving DecidableEq, Repr

def applyOp (s : Store) : RedisOp → Store
  | RedisOp.setex k _ v => s.setex k v
  | RedisOp.del k => s.del k
  | RedisOp.delPref p => s.delPref p

/-- Run a trace of redis calls in program order. -/
def applyOps (s : Store) (ops : List RedisOp) : Store :=
  ops.foldl applyOp s

/-! ## Key shapes

The f-strings of jwt.py / auth.py / token.py.  Note that the two eviction
prefixes (`f"{settings.TOKEN_REDIS_PREFIX}:{user_id}"`, jwt.py line 76, and
`f"{settings.TOKEN_REFRESH_REDIS_PREFIX}:{user_id}"`, jwt.py line 118) have
no trailing `:` separator, while the full key layouts do. -/

/-- `f"{settings.TOKEN_REDIS_PREFIX}:{user_id}"` — the single-login
eviction pattern for access tokens. -/
def accessEvictPat (user_id : String) : String :=
  TOKEN_REDIS_NS ++ ":" ++ user_id

/-- `f"{settings.TOKEN_REDIS_PREFIX}:{user_id}:"` — the common prefix of
user `user_id`'s access-token keys. -/
def accessKeyPref (user_id : String) : String :=
  accessEvictPat user_id ++ ":"

/-- `f"{settings.TOKEN_REDIS_PREFIX}:{user_id}:{session_uuid}"` -/
def accessKey (user_id session_uuid : String) : String :=
  accessKeyPref user_id ++ session_uuid

/-- `f"{settings.TOKEN_REFRESH_REDIS_PREFIX}:{user_id}"` — the
single-login eviction pattern for refresh tokens. -/
def refreshEvictPat (user_id : String) : String :=
  TOKEN_REFRESH_REDIS_NS ++ ":" ++ user_id

/-- `f"{settings.TOKEN_REFRESH_REDIS_PREFIX}:{user_id}:"` -/
def refreshKeyPref (user_id : String) : String :=
  refreshEvictPat user_id ++ ":"

/-- `f"{settings.TOKEN_REFRESH_REDIS_PREFIX}:{user_id}:{refresh_token}"` -/
def refreshKey (user_id refresh_token : String) : String :=
  refreshKeyPref user_id ++ refresh_token

/-- `f"{settings.TOKEN_EXTRA_INFO_REDIS_PREFIX}:{session_uuid}"` — how
extra info is keyed when written (jwt.py line 88) and read back
(token.py line 47): by session id alone. -/
def extraInfoKey (session_uuid : String) : String :=
  TOKEN_EXTRA_INFO_REDIS_NS ++ ":" ++ session_uuid

/-! ## Token issuance and rotation (`backend/common/security/jwt.py`)

Each operation returns the trace of redis calls it performs, in program
order, together with its return value.  `now` is the clock reading
(`timezone.now()` as a unix timestamp) and `session_uuid` the freshly
drawn `uuid4`; the refresh-token wire string produced by `jwt.encode` is
the opaque parameter `refresh_token` (its redis effects use it only as a
string). -/

/-- `backend/common/dataclasses.py: AccessToken` -/
structure AccessToken where
  access_token : Token
  access_token_expire_time : Nat
  session_uuid : String
deriving DecidableEq, Repr

/-- `backend/common/dataclasses.py: RefreshToken` -/
structure RefreshToken where
  refresh_token : String
  refresh_token_expire_time : Nat
deriving DecidableEq, Repr

/-- `backend/common/dataclasses.py: NewToken` -/
structure NewToken where
  new_access_token : Token
  new_access_token_expire_time : Nat
  new_refresh_token : String
  new_refresh_token_expire_time : Nat
  session_uuid : String
deriving DecidableEq, Repr

/-- The claim set `create_access_token` encodes (jwt.py lines 63-71). -/
def accessTokenClaims (user_id session_uuid : String) (expire : Nat) : Claims :=
  { sub := some user_id, exp := expire, session_uuid := some session_uuid }

/-- `create_access_token(user_id, multi_login, **kwargs)` (jwt.py lines
47-94).  In program order: when `multi_login` is false, prefix-delete
`f"{TOKEN_REDIS_PREFIX}:{user_id}"`; store the token under
`f"{TOKEN_REDIS_PREFIX}:{user_id}:{session_uuid}"`; when kwargs were
given, store their JSON blob under
`f"{TOKEN_EXTRA_INFO_REDIS_PREFIX}:{session_uuid}"`. -/
def create_access_token (user_id : String) (multi_login : Bool) (kwargs : Option ExtraInfo)
    (now : Nat) (session_uuid : String) (secret : String) : List RedisOp × AccessToken :=
  let expire := now + TOKEN_EXPIRE_SECONDS
  let access_token := jwtEncode (accessTokenClaims user_id session_uuid expire) secret
  let evict := if multi_login then [] else [RedisOp.delPref (accessEvictPat user_id)]
  let put := [RedisOp.setex (accessKey user_id session_uuid) TOKEN_EXPIRE_SECONDS (Val.jwt access_token)]
  let extras :=
    match kwargs with
    | some e => [RedisOp.setex (extraInfoKey session_uuid) TOKEN_EXPIRE_SECONDS (Val.blob e)]
    | none => []
  (evict ++ put ++ extras, ⟨access_token, expire, session_uuid⟩)

/-- `create_refresh_token(user_id, multi_login)` (jwt.py lines 97-127).
When `multi_login` is false, prefix-delete
`f"{TOKEN_REFRESH_REDIS_PREFIX}:{user_id}"`; then store the refresh-token
string under `f"{TOKEN_REFRESH_REDIS_PREFIX}:{user_id}:{refresh_token}"`
with the token string itself as the value. -/
def create_refresh_token (user_id : String) (multi_login : Bool)
    (now : Nat) (refresh_token : String) : List RedisOp × RefreshToken :=
  let expire := now + TOKEN_REFRESH_EXPIRE_SECONDS
  let evict := if multi_login then [] else [RedisOp.delPref (refreshEvictPat user_id)]
  let put := [RedisOp.setex (refreshKey user_id refresh_token) TOKEN_REFRESH_EXPIRE_SECONDS (Val.str refresh_token)]
  (evict ++ put, ⟨refresh_token, expire⟩)

/-- Python truthiness of a redis string reply (`None` and `""` falsy). -/
def pyTruthyVal : Option Val → Bool
  | none => false
  | some (Val.str s) => !(s == "")
  | some _ => true

/-- Python `==` between a redis string reply and a string. -/
def valEqStr : Option Val → String → Bool
  | some (Val.str s), t => s == t
  | _, _ => false

/-- `create_new_token(user_id, token, refresh_token, multi_login, **kwargs)`
(jwt.py lines 130-170).  Validates the presented refresh token against the
store (`TokenError("Refresh Token 已过期")` when absent, falsy, or not
equal to the stored value), decodes the old access token, then mints the
new pair and finally deletes the old access-token key (by the decoded
session id) and the old refresh-token key.  Returns the full redis trace
in program order. -/
def create_new_token (store : Store) (user_id : String) (token : Token)
    (refresh_token : String) (multi_login : Bool) (kwargs : Option ExtraInfo)
    (now : Nat) (new_session_uuid : String) (new_refresh_token : String)
    (secret : String) : Except AppError (List RedisOp × NewToken) :=
  let redis_refresh_token := store.get (refreshKey user_id refresh_token)
  if !pyTruthyVal redis_refresh_token || !valEqStr redis_refresh_token refresh_token then
    Except.error (AppError.tokenError "Refresh Token 已过期")
  else
    match jwt_decode token secret now with
    | Except.error e => Except.error e
    | Except.ok token_payload =>
      let a := create_access_token user_id multi_login kwargs now new_session_uuid secret
      let r := create_refresh_token user_id multi_login now new_refresh_token
      let dels := [RedisOp.del (accessKey user_id token_payload.session_uuid),
                   RedisOp.del (refreshKey user_id refresh_token)]
      Except.ok (a.1 ++ r.1 ++ dels,
        ⟨a.2.access_token, a.2.access_token_expire_time,
         r.2.refresh_token, r.2.refresh_token_expire_time, a.2.session_uuid⟩)

/-- The redis trace of `AuthService.user_login`'s token issuance
(auth.py lines 87-106): `create_access_token` with the client-context
kwargs, then `create_refresh_token`. -/
def user_login_ops (user_id : String) (multi_login : Bool) (extra : ExtraInfo)
    (now : Nat) (session_uuid refresh_token secret : String) : List RedisOp :=
  (create_access_token user_id multi_login (some extra) now session_uuid secret).1
    ++ (create_refresh_token user_id multi_login now refresh_token).1

/-! ## Credential verification (`AuthService.user_verify`, auth.py 33-55) -/

/-- The columns of the `User` model that the session core consumes. -/
structure UserRec where
  id : Int
  username : String
  phone : String
  password : Option String
  status : Bool
  is_multi_login : Bool
deriving DecidableEq, Repr

/-- `AuthService.user_verify(db, phone=..., username=..., password=...)`.
The database lookups (`user_crud.get_by_phone` / `get_by_username`) and
the bcrypt check (`password_verify`, jwt.py lines 42-44) are external
collaborators passed as functions.  Python truthiness is preserved: an
empty-string `phone`/`username` argument counts as not supplied, and the
check `user.password and not password_verify(...)` skips verification
entirely when the stored hash is `None` or empty — returning the user. -/
def user_verify (get_by_phone get_by_username : String → Option UserRec)
    (pw_verify : String → String → Bool)
    (phone username : Option String) (password : String) : Except AppError UserRec :=
  let looked : Except AppError (Option UserRec) :=
    if pyTruthyStr phone then Except.ok (get_by_phone (phone.getD ""))
    else if pyTruthyStr username then Except.ok (get_by_username (username.getD ""))
    else Except.error (AppError.requestError "请填写用户名或手机号")
  match looked with
  | Except.error e => Except.error e
  | Except.ok none => Except.error (AppError.notFoundError "用户不存在")
  | Except.ok (some user) =>
    if !user.status then Except.error (AppError.forbiddenError "用户已被禁用")
    else if pyTruthyStr user.password && !pw_verify password (user.password.getD "") then
      Except.error (AppError.forbiddenError "密码错误")
    else Except.ok user

/-! ## Logout (`AuthService.logout`, auth.py 187-209) -/

/-- Outcome of a successful logout: the store after the deletions, and
whether `response.delete_cookie` ran (it runs only after `jwt_decode`
returned, auth.py line 193). -/
structure LogoutResult where
  store : Store
  cookie_deleted : Bool
deriving DecidableEq, Repr

/-- `AuthService.logout(request, response)`.  The bearer token extracted by
`get_token` is the parameter `token`; the refresh cookie is
`refresh_token_cookie`; `request.user.is_multi_login` is `is_multi_login`.
`jwt_decode(token)` is called with no surrounding `try`, so a decode
failure propagates to the caller before the cookie is cleared or any key
deleted.  Multi-login: delete this session's access key and, when the
cookie is truthy, the presented refresh key.  Single-login: prefix-delete
both of the user's (colon-terminated) key namespaces. -/
def logout (store : Store) (token : Token) (refresh_token_cookie : Option String)
    (is_multi_login : Bool) (secret : String) (now : Nat) : Except AppError LogoutResult :=
  match jwt_decode token secret now with
  | Except.error e => Except.error e
  | Except.ok payload =>
    let user_id := toString payload.id
    if is_multi_login then
      let s1 := store.del (accessKey user_id payload.session_uuid)
      let s2 :=
        if pyTruthyStr refresh_token_cookie then
          s1.del (refreshKey user_id (refresh_token_cookie.getD ""))
        else s1
      Except.ok ⟨s2, true⟩
    else
      Except.ok ⟨(store.delPref (accessKeyPref user_id)).delPref (refreshKeyPref user_id), true⟩

/-! ## Kick-out (`TokenService.kick_out`, token.py 75-84) -/

/-- `TokenService.kick_out(request, user_id, KickOutToken)`.  After
`admin_verify` (which raises `AuthorizationError` for non-admins), deletes
`f"{TOKEN_REDIS_PREFIX}:{user_id}:{session_uuid}"` and
`f"{TOKEN_EXTRA_INFO_REDIS_PREFIX}:{user_id}:{session_uuid}"` — note the
second key interposes the user id, unlike `extraInfoKey`. -/
def kick_out (store : Store) (is_admin : Bool) (user_id : Int)
    (session_uuid : String) : Except AppError Store :=
  if !is_admin then Except.error (AppError.authorizationError "权限不足，请联系管理员")
  else
    Except.ok
      ((store.del (accessKey (toString user_id) session_uuid)).del
        (TOKEN_EXTRA_INFO_REDIS_NS ++ ":" ++ toString user_id ++ ":" ++ session_uuid))

/-! ## Session listing (`TokenService.get_token_list`, token.py 16-73) -/

/-- `backend/common/enums.py: StatusEnum` -/
inductive StatusEnum where
  | NO
  | YES
deriving DecidableEq, Repr

/-- `backend/app/admin/schema/token.py: LoginTokenDetail`.  The string
fields are optional because the `model_copy(update=...)` call bypasses
validation: a missing extra-info field overwrites the placeholder with
`None`. -/
structure LoginTokenDetail where
  id : Int
  session_uuid : String
  username : Option String
  nickname : Option String
  ip : Option String
  os : Option String
  browser : Option String
  device : Option String
  status : StatusEnum
  last_login_time : Option String
  expire_time : Nat
deriving DecidableEq, Repr

/-- The stored value under an access key, as seen by `jwt_decode`: a
non-JWT value decodes like any malformed string. -/
def valAsToken : Option Val → Token
  | some (Val.jwt t) => t
  | some (Val.str s) => Token.malformed s
  | some (Val.blob _) => Token.malformed "{}"
  | none => Token.malformed ""

/-- `TokenService.get_token_list(username=None)`.  Scans
`keys(f"{TOKEN_REDIS_PREFIX}:*")` and enters the `for` loop, whose body
ends with `return data` (token.py line 73), so only the first key is ever
processed and an empty scan falls out of the loop returning Python
`None` (modelled as `Except.ok none`).  For the processed key: decode the
stored token (failures propagate), build the placeholder detail with the
online flag from the online set, then merge the extra-info blob when
present — skipping the entry when `login_type == "swagger"` or when a
username filter is given and does not match — and append the bare
placeholder detail when no blob exists. -/
def get_token_list (store : Store) (token_online : List String)
    (username : Option String) (secret : String) (now : Nat) :
    Except AppError (Option (List LoginTokenDetail)) :=
  match store.keysMatching (TOKEN_REDIS_NS ++ ":") with
  | [] => Except.ok none
  | key :: _ =>
    match jwt_decode (valAsToken (store.get key)) secret now with
    | Except.error e => Except.error e
    | Except.ok payload =>
      let session_uuid := payload.session_uuid
      let token_detail : LoginTokenDetail :=
        { id := payload.id
          session_uuid := session_uuid
          username := some "未知"
          nickname := some "未知"
          ip := some "未知"
          os := some "未知"
          browser := some "未知"
          device := some "未知"
          status := if token_online.contains session_uuid then StatusEnum.YES else StatusEnum.NO
          last_login_time := some "未知"
          expire_time := payload.expire_time }
      match store.get (extraInfoKey session_uuid) with
      | some (Val.blob extra_info) =>
        Except.ok (some
          (if extra_info.login_type ≠ some "swagger" then
            (if !pyTruthyStr username || username == extra_info.username then
              [{ token_detail with
                  username := extra_info.username
                  nickname := extra_info.nickname
                  ip := extra_info.ip
                  os := extra_info.os
                  browser := extra_info.browser
                  device := extra_info.device
                  last_login_time := extra_info.last_login_time }]
            else [])
          else []))
      | some _ => Except.error AppError.valueError
      | none => Except.ok (some [token_detail])

/-! ## Trace predicates -/

/-- Whether a redis call writes a key (rather than deleting). -/
def opIsWrite : RedisOp → Bool
  | RedisOp.setex _ _ _ => true
  | _ => false

/-- A trace consisting of all its writes followed by all its deletes:
"new keys are written before old keys are deleted". -/
def writesThenDeletes : List RedisOp → Bool
  | [] => true
  | op :: rest =>
    if opIsWrite op then writesThenDeletes rest
    else rest.all (fun o => !opIsWrite o)

/-! ## Concrete instances used by the closed theorems -/

/-- A user record whose stored password hash is NULL. -/
def passwordlessUser : UserRec :=
  { id := 42, username := "13800000000", phone := "13800000000",
    password := none, status := true, is_multi_login := false }

def kickOutDemoExtra : ExtraInfo :=
  { username := some "alice", ip := some "1.2.3.4" }

/-- User 42 holds session "S1": its access token and its extra-info blob,
keyed exactly as `create_access_token` writes them. -/
def kickOutDemoStore : Store :=
  [(accessKey "42" "S1", Val.jwt (jwtEncode (accessTokenClaims "42" "S1" 999) "sec")),
   (extraInfoKey "S1", Val.blob kickOutDemoExtra)]

/-- A store with two live sessions: user 1's swagger-tagged session first,
then user 2's ordinary session, each with its extra-info blob. -/
def listDemoStore : Store :=
  [(accessKey "1" "sw1", Val.jwt (jwtEncode (accessTokenClaims "1" "sw1" 1000) "sec")),
   (extraInfoKey "sw1", Val.blob swaggerLoginExtra),
   (accessKey "2" "n2", Val.jwt (jwtEncode (accessTokenClaims "2" "n2" 1000) "sec")),
   (extraInfoKey "n2", Val.blob { username := some "bob" })]

/-- The single entry `get_token_list` produces on `listDemoStore`: user 1's
swagger-tagged session, its blob fields merged (all `None` except the
login tag, which the filter failed to exclude). -/
def listDemoEntry : LoginTokenDetail :=
  { id := 1, session_uuid := "sw1", username := none, nickname := none, ip := none,
    os := none, browser := none, device := none, status := StatusEnum.NO,
    last_login_time := none, expire_time := 1000 }

/-- The old access token of replay-demo user 9 (session "sOld"). -/
def replayDemoOld : Token := jwtEncode (accessTokenClaims "9" "sOld" 500) "sec"

/-- User 9 holds one token pair before rotation. -/
def replayDemoStore : Store :=
  [(accessKey "9" "sOld", Val.jwt replayDemoOld),
   (refreshKey "9" "rtOld", Val.str "rtOld")]

/-- The redis trace of user 9's first (multi-login) rotation at `now = 0`. -/
def replayDemoOps : List RedisOp :=
  [RedisOp.setex (accessKey "9" "sNew") TOKEN_EXPIRE_SECONDS
      (Val.jwt (jwtEncode (accessTokenClaims "9" "sNew" TOKEN_EXPIRE_SECONDS) "sec")),
   RedisOp.setex (refreshKey "9" "rtNew") TOKEN_REFRESH_EXPIRE_SECONDS (Val.str "rtNew"),
   RedisOp.del (accessKey "9" "sOld"),
   RedisOp.del (refreshKey "9" "rtOld")]

def replayDemoNt : NewToken :=
  { new_access_token := jwtEncode (accessTokenClaims "9" "sNew" TOKEN_EXPIRE_SECONDS) "sec",
    new_access_token_expire_time := TOKEN_EXPIRE_SECONDS,
    new_refresh_token := "rtNew",
    new_refresh_token_expire_time := TOKEN_REFRESH_EXPIRE_SECONDS,
    session_uuid := "sNew" }

/-- The old access token of rotation-demo user 1 (session "sOld"). -/
def rotDemoOld : Token := jwtEncode (accessTokenClaims "1" "sOld" 500) "sec"

/-- User 1 holds one token pair before a single-login rotation. -/
def rotDemoStore : Store :=
  [(accessKey "1" "sOld", Val.jwt rotDemoOld),
   (refreshKey "1" "rtOld", Val.str "rtOld")]

/-- The redis trace of user 1's single-login (`multi_login = False`)
rotation at `now = 0`: the eviction prefix-deletes run *before* the new
keys are written. -/
def rotDemoOps : List RedisOp :=
  [RedisOp.delPref (accessEvictPat "1"),
   RedisOp.setex (accessKey "1" "sNew") TOKEN_EXPIRE_SECONDS
      (Val.jwt (jwtEncode (accessTokenClaims "1" "sNew" TOKEN_EXPIRE_SECONDS) "sec")),
   RedisOp.delPref (refreshEvictPat "1"),
   RedisOp.setex (refreshKey "1" "rtNew") TOKEN_REFRESH_EXPIRE_SECONDS (Val.str "rtNew"),
   RedisOp.del (accessKey "1" "sOld"),
   RedisOp.del (refreshKey "1" "rtOld")]

def rotDemoNt : NewToken :=
  { new_access_token := jwtEncode (accessTokenClaims "1" "sNew" TOKEN_EXPIRE_SECONDS) "sec",
    new_access_token_expire_time := TOKEN_EXPIRE_SECONDS,
    new_refresh_token := "rtNew",
    new_refresh_token_expire_time := TOKEN_REFRESH_EXPIRE_SECONDS,
    session_uuid := "sNew" }

/-- The old access token of rotation-demo user 3 (session "sOld"). -/
def rot3DemoOld : Token := jwtEncode (accessTokenClaims "3" "sOld" 500) "sec"

/-- User 3 holds one token pair before a multi-login rotation. -/
def rot3DemoStore : Store :=
  [(accessKey "3" "sOld", Val.jwt rot3DemoOld),
   (refreshKey "3" "rtOld", Val.str "rtOld")]

/-- The redis trace of user 3's multi-login rotation at `now = 0`. -/
def rot3DemoOps : List RedisOp :=
  [RedisOp.setex (accessKey "3" "sNew") TOKEN_EXPIRE_SECONDS
      (Val.jwt (jwtEncode (accessTokenClaims "3" "sNew" TOKEN_EXPIRE_SECONDS) "sec")),
   RedisOp.setex (refreshKey "3" "rtNew") TOKEN_REFRESH_EXPIRE_SECONDS (Val.str "rtNew"),
   RedisOp.del (accessKey "3" "sOld"),
   RedisOp.del (refreshKey "3" "rtOld")]

def rot3DemoNt : NewToken :=
  { new_access_token := jwtEncode (accessTokenClaims "3" "sNew" TOKEN_EXPIRE_SECONDS) "sec",
    new_access_token_expire_time := TOKEN_EXPIRE_SECONDS,
    new_refresh_token := "rtNew",
    new_refresh_token_expire_time := TOKEN_REFRESH_EXPIRE_SECONDS,
    session_uuid := "sNew" }

/-- A store holding access tokens of users 12 and 2 — user "1"'s id
string is a proper prefix of user "12"'s but not of user "2"'s. -/
def frameDemoStore : Store :=
  [(accessKey "12" "sV", Val.jwt (jwtEncode (accessTokenClaims "12" "sV" 1000) "sec")),
   (accessKey "2" "sW", Val.jwt (jwtEncode (accessTokenClaims "2" "sW" 1000) "sec"))]

/-- A store holding only user 7's old session, for the single-login
eviction demo. -/
def evictDemoStore : Store :=
  [(accessKey "7" "sOld", Val.jwt (jwtEncode (accessTokenClaims "7" "sOld" 800) "sec"))]

/-! ## Lemma kit: store reads across operations -/

theorem get_filter_key (s : Store) (P : String → Bool) (q : String) :
    Store.get (s.filter (fun kv => P kv.1)) q = if P q then s.get q else none := by
  induction s with
  | nil => cases hP : P q <;> simp [Store.get, hP]
  | cons hd tl ih =>
    rcases hd with ⟨k, v⟩
    by_cases hk : k = q
    · subst hk
      cases hP : P k <;> simp [Store.get, List.filter, hP, ih]
    · cases hP : P k <;> simp [Store.get, List.filter, hP, ih, hk]

theorem get_setex (s : Store) (k : String) (v : Val) (q : String) :
    (s.setex k v).get q = if q = k then some v else s.get q := by
  have hf := get_filter_key s (fun x => !(x == k)) q
  by_cases hq : q = k
  · subst hq; simp [Store.setex, Store.get]
  · simp only [Store.setex, Store.get, if_neg (fun h : k = q => hq h.symm), if_neg hq, hf]
    simp [hq]

theorem get_del (s : Store) (k : String) (q : String) :
    (s.del k).get q = if q = k then none else s.get q := by
  have := get_filter_key s (fun x => !(x == k)) q
  simp only [Store.del, this]
  by_cases hq : q = k <;> simp [hq]

theorem get_delPref (s : Store) (p : String) (q : String) :
    (s.delPref p).get q = if keyMatches p q then none else s.get q := by
  have := get_filter_key s (fun x => !keyMatches p x) q
  simp only [Store.delPref, this]
  cases h : keyMatches p q <;> simp [h]

theorem get_delPref_of_match {s : Store} {p q : String} (h : keyMatches p q = true) :
    (s.delPref p).get q = none := by
  rw [get_delPref, if_pos h]

theorem get_delPref_of_not {s : Store} {p q : String} (h : keyMatches p q = false) :
    (s.delPref p).get q = s.get q := by
  rw [get_delPref]
  simp [h]

theorem applyOps_append (s : Store) (l₁ l₂ : List RedisOp) :
    applyOps s (l₁ ++ l₂) = applyOps (applyOps s l₁) l₂ :=
  List.foldl_append ..

/-! ## Lemma kit: key-shape facts -/

theorem strData_ext {s t : String} (h : s.data = t.data) : s = t := by
  cases s; cases t; simp_all

theorem keyMatches_append (p x : String) : keyMatches p (p ++ x) = true := by
  simp only [keyMatches, String.data_append, List.isPrefixOf_iff_prefix]
  exact List.prefix_append _ _

theorem keyMatches_of_append_left (p x k : String)
    (h : keyMatches (p ++ x) k = true) : keyMatches p k = true := by
  simp only [keyMatches, String.data_append, List.isPrefixOf_iff_prefix] at h ⊢
  exact (List.prefix_append p.data x.data).trans h

theorem strAppend_left_cancel {p a b : String} (h : p ++ a = p ++ b) : a = b := by
  apply strData_ext
  have hd : p.data ++ a.data = p.data ++ b.data := by
    rw [← String.data_append, ← String.data_append, h]
  exact List.append_cancel_left hd

/-- No access-token pattern (`"fs:token" ++ x`) is a prefix of a
refresh-token shaped key (`"fs:refresh_token" ++ y`): they disagree at
character 3. -/
theorem token_pat_not_in_refresh (x y : String) :
    keyMatches (TOKEN_REDIS_NS ++ x) (TOKEN_REFRESH_REDIS_NS ++ y) = false := by
  simp only [keyMatches, TOKEN_REDIS_NS, TOKEN_REFRESH_REDIS_NS, String.data_append]
  rw [Bool.eq_false_iff]
  intro h
  rw [List.isPrefixOf_iff_prefix] at h
  obtain ⟨t, ht⟩ := h
  simp only [List.cons_append, List.nil_append, List.cons.injEq] at ht
  exact absurd ht.2.2.2.1 (by decide)

/-- Symmetrically, no refresh-token pattern is a prefix of an access-token
shaped key. -/
theorem refresh_pat_not_in_token (x y : String) :
    keyMatches (TOKEN_REFRESH_REDIS_NS ++ x) (TOKEN_REDIS_NS ++ y) = false := by
  simp only [keyMatches, TOKEN_REDIS_NS, TOKEN_REFRESH_REDIS_NS, String.data_append]
  rw [Bool.eq_false_iff]
  intro h
  rw [List.isPrefixOf_iff_prefix] at h
  obtain ⟨t, ht⟩ := h
  simp only [List.cons_append, List.nil_append, List.cons.injEq] at ht
  exact absurd ht.2.2.2.1 (by decide)

/-- No colon-separated access-token pattern (`"fs:token:" ++ x`) is a
prefix of an extra-info shaped key (`"fs:token_extra_info" ++ y`): they
disagree at character 8. -/
theorem token_colon_pat_not_in_extra (x y : String) :
    keyMatches ((TOKEN_REDIS_NS ++ ":") ++ x) (TOKEN_EXTRA_INFO_REDIS_NS ++ y) = false := by
  simp only [keyMatches, TOKEN_REDIS_NS, TOKEN_EXTRA_INFO_REDIS_NS, String.data_append]
  rw [Bool.eq_false_iff]
  intro h
  rw [List.isPrefixOf_iff_prefix] at h
  obtain ⟨t, ht⟩ := h
  simp only [List.cons_append, List.nil_append, List.cons.injEq] at ht
  exact absurd ht.2.2.2.2.2.2.2.2.1 (by decide)

/-- No refresh-token pattern is a prefix of an extra-info shaped key:
they disagree at character 3. -/
theorem refresh_pat_not_in_extra (x y : String) :
    keyMatches (TOKEN_REFRESH_REDIS_NS ++ x) (TOKEN_EXTRA_INFO_REDIS_NS ++ y) = false := by
  simp only [keyMatches, TOKEN_REFRESH_REDIS_NS, TOKEN_EXTRA_INFO_REDIS_NS, String.data_append]
  rw [Bool.eq_false_iff]
  intro h
  rw [List.isPrefixOf_iff_prefix] at h
  obtain ⟨t, ht⟩ := h
  simp only [List.cons_append, List.nil_append, List.cons.injEq] at ht
  exact absurd ht.2.2.2.1 (by decide)

theorem keyMatches_self (p : String) : keyMatches p p = true := by
  simp [keyMatches, List.isPrefixOf_iff_prefix]

theorem keyMatches_of_eq {p k : String} (h : p = k) : keyMatches p k = true :=
  h ▸ keyMatches_self p

/-- Two patterns matching the same key are comparable. -/
theorem keyMatches_cases {p q k : String} (hp : keyMatches p k = true)
    (hq : keyMatches q k = true) :
    keyMatches p q = true ∨ keyMatches q p = true := by
  simp only [keyMatches, List.isPrefixOf_iff_prefix] at hp hq ⊢
  exact List.prefix_or_prefix_of_prefix hp hq

/-- Regrouping: `accessKeyPref u` in the `TOKEN_REDIS_NS ++ x` shape. -/
theorem accessKeyPref_norm (u : String) :
    accessKeyPref u = TOKEN_REDIS_NS ++ (":" ++ u ++ ":") := by
  apply strData_ext
  simp [accessKeyPref, accessEvictPat, String.data_append]

/-- Regrouping: `accessKeyPref u` in the `(TOKEN_REDIS_NS ++ ":") ++ x` shape. -/
theorem accessKeyPref_norm₂ (u : String) :
    accessKeyPref u = (TOKEN_REDIS_NS ++ ":") ++ (u ++ ":") := by
  apply strData_ext
  simp [accessKeyPref, accessEvictPat, String.data_append]

theorem accessKey_norm₂ (u s : String) :
    accessKey u s = (TOKEN_REDIS_NS ++ ":") ++ (u ++ ":" ++ s) := by
  apply strData_ext
  simp [accessKey, accessKeyPref, accessEvictPat, String.data_append]

theorem refreshKeyPref_norm (u : String) :
    refreshKeyPref u = TOKEN_REFRESH_REDIS_NS ++ (":" ++ u ++ ":") := by
  apply strData_ext
  simp [refreshKeyPref, refreshEvictPat, String.data_append]

theorem refreshKey_norm (u t : String) :
    refreshKey u t = TOKEN_REFRESH_REDIS_NS ++ (":" ++ u ++ ":" ++ t) := by
  apply strData_ext
  simp [refreshKey, refreshKeyPref, refreshEvictPat, String.data_append]

theorem accessEvictPat_norm (u : String) :
    accessEvictPat u = TOKEN_REDIS_NS ++ (":" ++ u) := by
  apply strData_ext
  simp [accessEvictPat, String.data_append]

theorem refreshEvictPat_norm (u : String) :
    refreshEvictPat u = TOKEN_REFRESH_REDIS_NS ++ (":" ++ u) := by
  apply strData_ext
  simp [refreshEvictPat, String.data_append]

theorem extraInfoKey_norm (s : String) :
    extraInfoKey s = TOKEN_EXTRA_INFO_REDIS_NS ++ (":" ++ s) := rfl

theorem accessKey_ne_refreshKey (u s v t : String) : accessKey u s ≠ refreshKey v t := by
  intro h
  have hm : keyMatches (accessKeyPref u) (refreshKey v t) = true := by
    rw [← h]
    exact keyMatches_append _ _
  rw [accessKeyPref_norm, refreshKey_norm, token_pat_not_in_refresh] at hm
  exact Bool.noConfusion hm

theorem accessKey_ne_extraInfoKey (u s s' : String) : accessKey u s ≠ extraInfoKey s' := by
  intro h
  have hm : keyMatches (accessKey u s) (extraInfoKey s') = true := keyMatches_of_eq h
  rw [accessKey_norm₂, extraInfoKey_norm, token_colon_pat_not_in_extra] at hm
  exact Bool.noConfusion hm

theorem refreshKey_ne_extraInfoKey (u t s' : String) : refreshKey u t ≠ extraInfoKey s' := by
  intro h
  have hm : keyMatches (refreshKey u t) (extraInfoKey s') = true := keyMatches_of_eq h
  rw [refreshKey_norm, extraInfoKey_norm, refresh_pat_not_in_extra] at hm
  exact Bool.noConfusion hm

/-- `accessKey u` is injective in the session id. -/
theorem accessKey_inj {u s s' : String} (h : accessKey u s = accessKey u s') : s = s' :=
  strAppend_left_cancel h

/-- A key under user `u`'s colon-terminated access namespace also matches
the (unseparated) eviction pattern. -/
theorem accessEvict_of_keyPref {u k : String}
    (h : keyMatches (accessKeyPref u) k = true) : keyMatches (accessEvictPat u) k = true :=
  keyMatches_of_append_left _ _ _ h

theorem refreshEvict_of_keyPref {u k : String}
    (h : keyMatches (refreshKeyPref u) k = true) : keyMatches (refreshEvictPat u) k = true :=
  keyMatches_of_append_left _ _ _ h

/-- A key under user `u`'s access namespace is not under any refresh
eviction pattern. -/
theorem no_refreshEvict_of_accessKeyPref {u v k : String}
    (h : keyMatches (accessKeyPref u) k = true) :
    keyMatches (refreshEvictPat v) k = false := by
  rw [Bool.eq_false_iff]
  intro hr
  rcases keyMatches_cases h hr with hc | hc
  · rw [accessKeyPref_norm, refreshEvictPat_norm, token_pat_not_in_refresh] at hc
    exact Bool.noConfusion hc
  · rw [refreshEvictPat_norm, accessKeyPref_norm, refresh_pat_not_in_token] at hc
    exact Bool.noConfusion hc

/-- A key under user `u`'s refresh namespace is not under any access
eviction pattern. -/
theorem no_accessEvict_of_refreshKeyPref {u v k : String}
    (h : keyMatches (refreshKeyPref u) k = true) :
    keyMatches (accessEvictPat v) k = false := by
  rw [Bool.eq_false_iff]
  intro hr
  rcases keyMatches_cases h hr with hc | hc
  · rw [refreshKeyPref_norm, accessEvictPat_norm, refresh_pat_not_in_token] at hc
    exact Bool.noConfusion hc
  · rw [accessEvictPat_norm, refreshKeyPref_norm, token_pat_not_in_refresh] at hc
    exact Bool.noConfusion hc

/-- A key under user `u`'s access namespace is no extra-info key. -/
theorem accessKeyPref_ne_extraInfoKey {u k : String}
    (h : keyMatches (accessKeyPref u) k = true) (s : String) : k ≠ extraInfoKey s := by
  intro he
  rw [he, accessKeyPref_norm₂, extraInfoKey_norm, token_colon_pat_not_in_extra] at h
  exact Bool.noConfusion h

/-- A key under user `u`'s refresh namespace is no extra-info key. -/
theorem refreshKeyPref_ne_extraInfoKey {u k : String}
    (h : keyMatches (refreshKeyPref u) k = true) (s : String) : k ≠ extraInfoKey s := by
  intro he
  rw [he, refreshKeyPref_norm, extraInfoKey_norm, refresh_pat_not_in_extra] at h
  exact Bool.noConfusion h

/-- A key under user `u`'s access namespace is no refresh key. -/
theorem accessKeyPref_ne_refreshKey {u k : String}
    (h : keyMatches (accessKeyPref u) k = true) (v t : String) : k ≠ refreshKey v t := by
  intro he
  rw [he, accessKeyPref_norm, refreshKey_norm, token_pat_not_in_refresh] at h
  exact Bool.noConfusion h

/-- A key under user `u`'s refresh namespace is no access key. -/
theorem refreshKeyPref_ne_accessKey {u k : String}
    (h : keyMatches (refreshKeyPref u) k = true) (v s : String) : k ≠ accessKey v s := by
  intro he
  rw [he, refreshKeyPref_norm, accessKey_norm₂] at h
  rw [show (TOKEN_REDIS_NS ++ ":") ++ (v ++ ":" ++ s) = TOKEN_REDIS_NS ++ (":" ++ (v ++ ":" ++ s)) from by
    apply strData_ext; simp [String.data_append]] at h
  rw [refresh_pat_not_in_token] at h
  exact Bool.noConfusion h

/-! ## Claim theorems -/

/-- C1 (code bug): kicking out user 42's session "S1" deletes the
access-token key, but the extra-info key it deletes is
`fs:token_extra_info:42:S1` — a key never written — so the blob stored at
creation under `fs:token_extra_info:S1` is still present afterwards,
although the claim (and spec scenario) requires `extra:S1` to be removed. -/
theorem kick_out_leaves_extra_info :
    ∃ s' : Store, kick_out kickOutDemoStore true 42 "S1" = Except.ok s' ∧
      s'.get (accessKey "42" "S1") = none ∧
      s'.get (extraInfoKey "S1") = some (Val.blob kickOutDemoExtra) :=
  ⟨[(extraInfoKey "S1", Val.blob kickOutDemoExtra)], rfl, rfl, rfl⟩

/-- C2 (counterexample): a logout presenting an undecodable access token
raises `TokenError` to the caller instead of proceeding best-effort — in
particular the refresh cookie is never cleared. -/
theorem logout_fails_on_undecodable_token :
    logout [] (Token.malformed "garbage") (some "cookie") true "sec" 0
      = Except.error (AppError.tokenError "Token 无效") := rfl

/-- C2 (amended): `AuthService.logout` calls `jwt_decode` outside any
`try`, so whenever decoding the presented access token fails, logout
propagates that very error and performs neither the cookie deletion nor
any store deletion. -/
theorem logout_propagates_decode_error (store : Store) (token : Token)
    (cookie : Option String) (multi : Bool) (secret : String) (now : Nat) (e : AppError)
    (h : jwt_decode token secret now = Except.error e) :
    logout store token cookie multi secret now = Except.error e := by
  simp [logout, h]

theorem logout_propagates_decode_error_witness :
    logout [] (Token.malformed "g") none false "k" 7
      = Except.error (AppError.tokenError "Token 无效") :=
  logout_propagates_decode_error [] (Token.malformed "g") none false "k" 7
    (AppError.tokenError "Token 无效") rfl

/-- C6 (code bug): the session listing's `for` body ends in `return data`,
so with two live sessions in the store only the first scanned key is
processed — and the swagger-tagged session is *not* excluded, because the
filter compares `login_type` against `"swagger"` while `swagger_login`
stores `"Swagger 登录"`.  The second conjunct shows the scan itself did
return both access keys. -/
theorem get_token_list_stops_after_first_key :
    get_token_list listDemoStore [] none "sec" 0 = Except.ok (some [listDemoEntry]) ∧
    listDemoStore.keysMatching (TOKEN_REDIS_NS ++ ":")
      = [accessKey "1" "sw1", accessKey "2" "n2"] :=
  ⟨rfl, rfl⟩

/-- C7 (code bug): `user_verify`'s check is
`user.password and not password_verify(...)`, so when the stored hash is
NULL the whole check is skipped and *any* presented password is accepted:
the call returns the user instead of a definite failure. -/
theorem user_verify_accepts_any_password_when_hash_absent
    (pw : String) (pw_verify : String → String → Bool) :
    user_verify (fun _ => some passwordlessUser) (fun _ => none) pw_verify
      (some "13800000000") none pw = Except.ok passwordlessUser := rfl

/-- C8: for a well-signed token, decode fails with the expired-kind
`TokenError` exactly when the expiry claim is in the past; malformed
structure, signature mismatch, and a missing (or empty) subject claim all
fail with the invalid-kind `TokenError`; the two kinds are distinguishable
by the caller. -/
theorem jwt_decode_error_kinds (now : Nat) (secret : String) :
    (∀ c : Claims,
      (jwt_decode (Token.signed c secret) secret now
          = Except.error (AppError.tokenError "Token 已过期") ↔ c.exp < now)) ∧
    (∀ raw : String,
      jwt_decode (Token.malformed raw) secret now
        = Except.error (AppError.tokenError "Token 无效")) ∧
    (∀ (c : Claims) (k : String), k ≠ secret →
      jwt_decode (Token.signed c k) secret now
        = Except.error (AppError.tokenError "Token 无效")) ∧
    (∀ c : Claims, ¬ c.exp < now → (c.sub = none ∨ c.sub = some "") →
      jwt_decode (Token.signed c secret) secret now
        = Except.error (AppError.tokenError "Token 无效")) ∧
    AppError.tokenError "Token 已过期" ≠ AppError.tokenError "Token 无效" := by
  refine ⟨fun c => ⟨fun h => ?_, fun h => ?_⟩, fun raw => rfl, fun c k hk => ?_,
    fun c hexp hsub => ?_, by decide⟩
  · by_contra hexp
    rcases hs : c.sub with - | uid
    · simp [jwt_decode, joseDecode, hexp, hs] at h
    · by_cases hu : uid = ""
      · simp [jwt_decode, joseDecode, hexp, hs, hu] at h
      · rcases hn : pyInt? uid with - | n
        · simp [jwt_decode, joseDecode, hexp, hs, hu, hn] at h
        · simp [jwt_decode, joseDecode, hexp, hs, hu, hn] at h
  · simp [jwt_decode, joseDecode, h]
  · simp [jwt_decode, joseDecode, hk]
  · rcases hsub with hs | hs <;> simp [jwt_decode, joseDecode, hexp, hs]

theorem jwt_decode_error_kinds_witness :
    jwt_decode (Token.signed ⟨some "1", 3, some "s"⟩ "k") "k" 5
        = Except.error (AppError.tokenError "Token 已过期") ∧
    jwt_decode (Token.signed ⟨some "1", 9, some "s"⟩ "wrong") "k" 5
        = Except.error (AppError.tokenError "Token 无效") :=
  ⟨((jwt_decode_error_kinds 5 "k").1 ⟨some "1", 3, some "s"⟩).mpr (by decide),
   (jwt_decode_error_kinds 5 "k").2.2.1 ⟨some "1", 9, some "s"⟩ "wrong" (by decide)⟩

/-- C9: decoding a token freshly encoded by `create_access_token`'s claim
set returns the same numeric subject and the same expiry (the session id
round-trips too when non-empty), provided the subject is a numeric string
and the expiry is not in the past. -/
theorem jwt_decode_encode_roundtrip (user_id : String) (n : Int) (sess : String)
    (expire now : Nat) (secret : String)
    (hn : pyInt? user_id = some n) (hexp : ¬ expire < now) (hs : sess ≠ "") :
    jwt_decode (jwtEncode (accessTokenClaims user_id sess expire) secret) secret now
      = Except.ok ⟨n, sess, expire⟩ := by
  have hu : user_id ≠ "" := by
    intro h
    rw [h, show pyInt? "" = none from rfl] at hn
    exact Option.noConfusion hn
  simp [jwt_decode, jwtEncode, joseDecode, accessTokenClaims, hexp, hn, hu, hs]

theorem jwt_decode_encode_roundtrip_witness :
    jwt_decode (jwtEncode (accessTokenClaims "42" "s1" 10) "key") "key" 5
      = Except.ok ⟨42, "s1", 10⟩ :=
  jwt_decode_encode_roundtrip "42" 42 "s1" 10 5 "key" (by decide) (by decide) (by decide)

/-- C5: refresh is non-replayable.  `create_new_token` ends by deleting
`refresh:{user_id}:{refresh_token}`, and validation requires that key to
hold exactly the presented value: whatever a second rotation presents the
same refresh token (any flags, clock, access token), it fails with the
`TokenError("Refresh Token 已过期")`. -/
theorem refresh_token_not_replayable
    (store : Store) (u : String) (tok tok₂ : Token) (rt : String)
    (m m₂ : Bool) (kw kw₂ : Option ExtraInfo) (now now₂ : Nat)
    (sess rt' sess₂ rt₂ secret : String)
    (ops : List RedisOp) (nt : NewToken)
    (hok : create_new_token store u tok rt m kw now sess rt' secret = Except.ok (ops, nt)) :
    create_new_token (applyOps store ops) u tok₂ rt m₂ kw₂ now₂ sess₂ rt₂ secret
      = Except.error (AppError.tokenError "Refresh Token 已过期") := by
  simp only [create_new_token] at hok
  split at hok
  · exact Except.noConfusion hok
  · split at hok
    · exact Except.noConfusion hok
    · rename_i payload hdec
      simp only [Except.ok.injEq, Prod.mk.injEq] at hok
      obtain ⟨hops, -⟩ := hok
      have hnone : (applyOps store ops).get (refreshKey u rt) = none := by
        rw [← hops, applyOps_append]
        show ((((applyOps store _).del (accessKey u payload.session_uuid)).del
          (refreshKey u rt)).get (refreshKey u rt)) = none
        rw [get_del, if_pos rfl]
      simp [create_new_token, hnone, pyTruthyVal, valEqStr]

theorem refresh_token_not_replayable_witness :
    create_new_token (applyOps replayDemoStore replayDemoOps) "9" replayDemoOld "rtOld"
        true none 1 "sN2" "rtN2" "sec"
      = Except.error (AppError.tokenError "Refresh Token 已过期") :=
  refresh_token_not_replayable replayDemoStore "9" replayDemoOld replayDemoOld "rtOld"
    true true none none 0 1 "sNew" "rtNew" "sN2" "rtN2" "sec" replayDemoOps replayDemoNt rfl

/-- C3 (counterexample): on a single-login (`multi_login = False`) refresh
the claim's write-new-before-delete-old order is violated: the very first
redis operation of the rotation is the access-namespace prefix-delete, so
after it the previously valid access-token key of the user is gone while
neither the new access key nor the new refresh key has been written yet. -/
theorem refresh_single_login_evicts_before_writing :
    ∃ nt : NewToken,
      create_new_token rotDemoStore "1" rotDemoOld "rtOld" false none 0 "sNew" "rtNew" "sec"
        = Except.ok (rotDemoOps, nt) ∧
      rotDemoStore.get (accessKey "1" "sOld") = some (Val.jwt rotDemoOld) ∧
      (applyOps rotDemoStore (rotDemoOps.take 1)).get (accessKey "1" "sOld") = none ∧
      (applyOps rotDemoStore (rotDemoOps.take 1)).get (accessKey "1" "sNew") = none ∧
      (applyOps rotDemoStore (rotDemoOps.take 1)).get (refreshKey "1" "rtNew") = none :=
  ⟨rotDemoNt, rfl, rfl, rfl, rfl, rfl⟩

/-- C3 (amended): when the user's multi-login flag is *enabled*, a refresh
trace is all writes followed by all deletes, and at every intermediate
point the user still holds at least one stored token key (access or
refresh) — assuming the freshly drawn session id differs from the retired
one, as `uuid4` guarantees.  (With multi-login disabled the eviction
prefix-delete precedes the writes; see the counterexample.) -/
theorem refresh_multi_login_writes_before_deletes
    (store : Store) (u : String) (tok : Token) (rt : String) (kw : Option ExtraInfo)
    (now : Nat) (sess rt' secret : String) (ops : List RedisOp) (nt : NewToken)
    (hok : create_new_token store u tok rt true kw now sess rt' secret = Except.ok (ops, nt))
    (hsess : ∀ p : TokenPayload, jwt_decode tok secret now = Except.ok p →
      p.session_uuid ≠ sess) :
    writesThenDeletes ops = true ∧
    ∀ i : Nat, ∃ k : String,
      (keyMatches (accessKeyPref u) k = true ∨ keyMatches (refreshKeyPref u) k = true) ∧
      ((applyOps store (ops.take i)).get k).isSome = true := by
  simp only [create_new_token] at hok
  split at hok
  · exact Except.noConfusion hok
  · rename_i hcond
    split at hok
    · exact Except.noConfusion hok
    · rename_i payload hdec
      have hval : valEqStr (store.get (refreshKey u rt)) rt = true := by
        cases hb : valEqStr (store.get (refreshKey u rt)) rt
        · exact absurd (by simp [hb]) hcond
        · rfl
      have hget : store.get (refreshKey u rt) = some (Val.str rt) := by
        rcases hx : store.get (refreshKey u rt) with - | v
        · rw [hx] at hval; exact Bool.noConfusion hval
        · rcases v with s | t' | e
          · rw [hx] at hval
            simp only [valEqStr, beq_iff_eq] at hval
            rw [hval]
          · rw [hx] at hval; exact Bool.noConfusion hval
          · rw [hx] at hval; exact Bool.noConfusion hval
      have hne : accessKey u sess ≠ accessKey u payload.session_uuid := by
        intro h
        exact hsess payload hdec (accessKey_inj h).symm
      simp only [Except.ok.injEq, Prod.mk.injEq] at hok
      obtain ⟨hops, -⟩ := hok
      rcases kw with - | e
      · have hops' : ops = [RedisOp.setex (accessKey u sess) TOKEN_EXPIRE_SECONDS
              (Val.jwt (jwtEncode (accessTokenClaims u sess (now + TOKEN_EXPIRE_SECONDS)) secret)),
            RedisOp.setex (refreshKey u rt') TOKEN_REFRESH_EXPIRE_SECONDS (Val.str rt'),
            RedisOp.del (accessKey u payload.session_uuid),
            RedisOp.del (refreshKey u rt)] := by
          rw [← hops]; rfl
        subst hops'
        refine ⟨rfl, fun i => ?_⟩
        rcases i with - | - | - | - | j
        · refine ⟨refreshKey u rt, Or.inr (keyMatches_append _ _), ?_⟩
          show ((store.get (refreshKey u rt))).isSome = true
          rw [hget]; rfl
        · refine ⟨accessKey u sess, Or.inl (keyMatches_append _ _), ?_⟩
          simp only [List.take_succ_cons, List.take_zero, applyOps, List.foldl_cons,
            List.foldl_nil, applyOp]
          rw [get_setex, if_pos rfl]; rfl
        · refine ⟨accessKey u sess, Or.inl (keyMatches_append _ _), ?_⟩
          simp only [List.take_succ_cons, List.take_zero, applyOps, List.foldl_cons,
            List.foldl_nil, applyOp]
          rw [get_setex, if_neg (accessKey_ne_refreshKey u sess u rt'),
            get_setex, if_pos rfl]; rfl
        · refine ⟨accessKey u sess, Or.inl (keyMatches_append _ _), ?_⟩
          simp only [List.take_succ_cons, List.take_zero, applyOps, List.foldl_cons,
            List.foldl_nil, applyOp]
          rw [get_del, if_neg hne, get_setex, if_neg (accessKey_ne_refreshKey u sess u rt'),
            get_setex, if_pos rfl]; rfl
        · refine ⟨accessKey u sess, Or.inl (keyMatches_append _ _), ?_⟩
          rw [List.take_of_length_le (by simp)]
          simp only [applyOps, List.foldl_cons, List.foldl_nil, applyOp]
          rw [get_del, if_neg (accessKey_ne_refreshKey u sess u rt),
            get_del, if_neg hne, get_setex, if_neg (accessKey_ne_refreshKey u sess u rt'),
            get_setex, if_pos rfl]; rfl
      · have hops' : ops = [RedisOp.setex (accessKey u sess) TOKEN_EXPIRE_SECONDS
              (Val.jwt (jwtEncode (accessTokenClaims u sess (now + TOKEN_EXPIRE_SECONDS)) secret)),
            RedisOp.setex (extraInfoKey sess) TOKEN_EXPIRE_SECONDS (Val.blob e),
            RedisOp.setex (refreshKey u rt') TOKEN_REFRESH_EXPIRE_SECONDS (Val.str rt'),
            RedisOp.del (accessKey u payload.session_uuid),
            RedisOp.del (refreshKey u rt)] := by
          rw [← hops]; rfl
        subst hops'
        refine ⟨rfl, fun i => ?_⟩
        rcases i with - | - | - | - | - | j
        · refine ⟨refreshKey u rt, Or.inr (keyMatches_append _ _), ?_⟩
          show ((store.get (refreshKey u rt))).isSome = true
          rw [hget]; rfl
        · refine ⟨accessKey u sess, Or.inl (keyMatches_append _ _), ?_⟩
          simp only [List.take_succ_cons, List.take_zero, applyOps, List.foldl_cons,
            List.foldl_nil, applyOp]
          rw [get_setex, if_pos rfl]; rfl
        · refine ⟨accessKey u sess, Or.inl (keyMatches_append _ _), ?_⟩
          simp only [List.take_succ_cons, List.take_zero, applyOps, List.foldl_cons,
            List.foldl_nil, applyOp]
          rw [get_setex, if_neg (accessKey_ne_extraInfoKey u sess sess),
            get_setex, if_pos rfl]; rfl
        · refine ⟨accessKey u sess, Or.inl (keyMatches_append _ _), ?_⟩
          simp only [List.take_succ_cons, List.take_zero, applyOps, List.foldl_cons,
            List.foldl_nil, applyOp]
          rw [get_setex, if_neg (accessKey_ne_refreshKey u sess u rt'),
            get_setex, if_neg (accessKey_ne_extraInfoKey u sess sess),
            get_setex, if_pos rfl]; rfl
        · refine ⟨accessKey u sess, Or.inl (keyMatches_append _ _), ?_⟩
          simp only [List.take_succ_cons, List.take_zero, applyOps, List.foldl_cons,
            List.foldl_nil, applyOp]
          rw [get_del, if_neg hne, get_setex, if_neg (accessKey_ne_refreshKey u sess u rt'),
            get_setex, if_neg (accessKey_ne_extraInfoKey u sess sess),
            get_setex, if_pos rfl]; rfl
        · refine ⟨accessKey u sess, Or.inl (keyMatches_append _ _), ?_⟩
          rw [List.take_of_length_le (by simp)]
          simp only [applyOps, List.foldl_cons, List.foldl_nil, applyOp]
          rw [get_del, if_neg (accessKey_ne_refreshKey u sess u rt),
            get_del, if_neg hne, get_setex, if_neg (accessKey_ne_refreshKey u sess u rt'),
            get_setex, if_neg (accessKey_ne_extraInfoKey u sess sess),
            get_setex, if_pos rfl]; rfl

theorem refresh_multi_login_writes_before_deletes_witness :
    writesThenDeletes rot3DemoOps = true ∧
    ∃ k : String,
      (keyMatches (accessKeyPref "3") k = true ∨ keyMatches (refreshKeyPref "3") k = true) ∧
      ((applyOps rot3DemoStore (rot3DemoOps.take 1)).get k).isSome = true := by
  have h := refresh_multi_login_writes_before_deletes rot3DemoStore "3" rot3DemoOld "rtOld"
    none 0 "sNew" "rtNew" "sec" rot3DemoOps rot3DemoNt rfl
    (by
      intro p hp
      rw [show jwt_decode rot3DemoOld "sec" 0
        = Except.ok ⟨3, "sOld", 500⟩ from rfl] at hp
      injection hp with h'
      rw [← h']
      decide)
  exact ⟨h.1, h.2 1⟩

/-- C4: after a single-login (`multi_login = False`) login completes, the
only key under user `u`'s colon-terminated access namespace is the freshly
written access key, and the only key under the refresh namespace is the
freshly written refresh key — every previously stored token key of the
user was deleted by the two eviction prefix-deletes, so the user holds at
most (exactly) one session. -/
theorem single_login_at_most_one_session
    (store : Store) (u sess rt : String) (extra : ExtraInfo) (now : Nat) (secret : String)
    (k : String) :
    (keyMatches (accessKeyPref u) k = true →
      (((applyOps store (user_login_ops u false extra now sess rt secret)).get k).isSome = true
        ↔ k = accessKey u sess)) ∧
    (keyMatches (refreshKeyPref u) k = true →
      (((applyOps store (user_login_ops u false extra now sess rt secret)).get k).isSome = true
        ↔ k = refreshKey u rt)) := by
  have hs : applyOps store (user_login_ops u false extra now sess rt secret)
      = ((((store.delPref (accessEvictPat u)).setex (accessKey u sess)
            (Val.jwt (jwtEncode (accessTokenClaims u sess (now + TOKEN_EXPIRE_SECONDS))
              secret))).setex
            (extraInfoKey sess) (Val.blob extra)).delPref (refreshEvictPat u)).setex
            (refreshKey u rt) (Val.str rt) := rfl
  rw [hs]
  constructor
  · intro hk
    rw [get_setex, if_neg (accessKeyPref_ne_refreshKey hk u rt),
      get_delPref_of_not (no_refreshEvict_of_accessKeyPref hk),
      get_setex, if_neg (accessKeyPref_ne_extraInfoKey hk sess), get_setex]
    by_cases hak : k = accessKey u sess
    · simp [hak]
    · rw [if_neg hak, get_delPref_of_match (accessEvict_of_keyPref hk)]
      simp [hak]
  · intro hk
    rw [get_setex]
    by_cases hrk : k = refreshKey u rt
    · simp [hrk]
    · rw [if_neg hrk, get_delPref_of_match (refreshEvict_of_keyPref hk)]
      simp [hrk]

theorem single_login_at_most_one_session_witness :
    ((applyOps evictDemoStore (user_login_ops "7" false {} 0 "sNew" "rtN" "sec")).get
        (accessKey "7" "sOld")).isSome = false := by
  have h := (single_login_at_most_one_session evictDemoStore "7" "sNew" "rtN" {} 0 "sec"
    (accessKey "7" "sOld")).1 (by decide)
  rw [Bool.eq_false_iff]
  intro hb
  exact absurd (h.mp hb) (by decide)

/-- C10 (counterexample): a single-login login by user "1" deletes user
"12"'s stored access-token key — the eviction pattern `fs:token:1` has no
trailing separator, and "1" is a proper prefix of "12". -/
theorem login_deletes_extending_user_keys :
    frameDemoStore.get (accessKey "12" "sV")
        = some (Val.jwt (jwtEncode (accessTokenClaims "12" "sV" 1000) "sec")) ∧
    (applyOps frameDemoStore (user_login_ops "1" false {} 0 "sU" "rtU" "sec")).get
        (accessKey "12" "sV") = none :=
  ⟨rfl, rfl⟩

/-- C10 (amended): a login by user `u` (either multi-login flag) leaves
every key unchanged that is outside the two unseparated eviction patterns
`fs:token:{u}` / `fs:refresh_token:{u}` and distinct from the three newly
written keys.  Other users' keys fall outside those patterns — and are
hence untouched — exactly when `u`'s decimal id string is not a prefix of
the rest of their key, which fails for users whose id string extends
`u`'s (see the counterexample). -/
theorem login_frame_property
    (store : Store) (u : String) (multi : Bool) (extra : ExtraInfo) (now : Nat)
    (sess rt secret k : String)
    (h1 : keyMatches (accessEvictPat u) k = false)
    (h2 : keyMatches (refreshEvictPat u) k = false)
    (h3 : k ≠ accessKey u sess) (h4 : k ≠ extraInfoKey sess) (h5 : k ≠ refreshKey u rt) :
    (applyOps store (user_login_ops u multi extra now sess rt secret)).get k = store.get k := by
  cases multi
  · have hs : applyOps store (user_login_ops u false extra now sess rt secret)
        = ((((store.delPref (accessEvictPat u)).setex (accessKey u sess)
              (Val.jwt (jwtEncode (accessTokenClaims u sess (now + TOKEN_EXPIRE_SECONDS))
                secret))).setex
              (extraInfoKey sess) (Val.blob extra)).delPref (refreshEvictPat u)).setex
              (refreshKey u rt) (Val.str rt) := rfl
    rw [hs, get_setex, if_neg h5, get_delPref_of_not h2, get_setex, if_neg h4,
      get_setex, if_neg h3, get_delPref_of_not h1]
  · have hs : applyOps store (user_login_ops u true extra now sess rt secret)
        = ((store.setex (accessKey u sess)
              (Val.jwt (jwtEncode (accessTokenClaims u sess (now + TOKEN_EXPIRE_SECONDS))
                secret))).setex
              (extraInfoKey sess) (Val.blob extra)).setex
              (refreshKey u rt) (Val.str rt) := rfl
    rw [hs, get_setex, if_neg h5, get_setex, if_neg h4, get_setex, if_neg h3]

theorem login_frame_property_witness :
    (applyOps frameDemoStore (user_login_ops "1" false {} 0 "sU" "rtU" "sec")).get
        (accessKey "2" "sW")
      = frameDemoStore.get (accessKey "2" "sW") :=
  login_frame_property frameDemoStore "1" false {} 0 "sU" "rtU" "sec" (accessKey "2" "sW")
    (by decide) (by decide) (by decide) (by decide) (by decide)

end FS
